import Mathlib

/-!
# Verification of the document classification pipeline

A shallow embedding of `scripts/classify_documents.py`: the regex-based rule
engine (`classify_document`), the metadata extractors (`extract_community_name`,
`extract_owner_account`), the index-client operations (`search_documents`,
`update_documents_batch`) and the sync orchestrator (`run_classification`),
together with theorems about the behaviour of these functions.

Python regular expressions used by the script are embedded as terms of a small
regex AST (`RE`) and interpreted by a positional backtracking matcher that
mirrors `re.search` semantics for the constructs the script uses: literals
(always with `re.IGNORECASE`, as every call site passes that flag), `.`,
`\d`, `\s`, character classes, `^`/`$` anchors, greedy `*`/`+`/`?`,
alternation, negative lookahead `(?!...)` and one capture group.
-/

namespace ClassifyDocs

/-- One item of a character class: a plain character or the `\s` shorthand. -/
inductive CI where
  | ch (c : Char)
  | ws
deriving DecidableEq

/-- Regex AST covering the constructs appearing in the script's patterns. -/
inductive RE where
  | eps
  | lit (c : Char)
  | anyc
  | digit
  | space
  | cls (neg : Bool) (items : List CI)
  | grp (r : RE)
  | cat (a b : RE)
  | alt (a b : RE)
  | star (a : RE)
  | plus (a : RE)
  | opt (a : RE)
  | bol
  | eol
  | nla (a : RE)
deriving DecidableEq

/-- Does a character match a class item (case-insensitively, `re.IGNORECASE`)? -/
def ciMatch (c : Char) : CI → Bool
  | .ch pc => c.toLower == pc.toLower
  | .ws => c.isWhitespace

/-- Merge capture-group spans of two sequentially matched parts: the part
matched first keeps its group (the patterns contain at most one group). -/
def mergeG (a b : Option (Nat × Nat)) : Option (Nat × Nat) :=
  match a with
  | some x => some x
  | none => b

/-- Structural size of a regex, used to compute a sufficient fuel bound. -/
def reSize : RE → Nat
  | .eps => 1
  | .lit _ => 1
  | .anyc => 1
  | .digit => 1
  | .space => 1
  | .cls _ _ => 1
  | .bol => 1
  | .eol => 1
  | .grp a => reSize a + 1
  | .cat a b => reSize a + reSize b + 1
  | .alt a b => reSize a + reSize b + 1
  | .star a => reSize a + 1
  | .plus a => reSize a + 1
  | .opt a => reSize a + 1
  | .nla a => reSize a + 1

/-- All ways a regex can match starting at position `i` of `s`, listed in the
backtracking engine's preference order (greedy quantifiers try longer matches
first, alternation tries the left branch first).  Each result is the end
position together with the span of capture group 1, when one participated.
Fuel only bounds the recursion; `reFuel` below always provides enough. -/
def mtch (s : List Char) : Nat → RE → Nat → List (Nat × Option (Nat × Nat))
  | 0, _, _ => []
  | f + 1, r, i =>
    match r with
    | .eps => [(i, none)]
    | .lit c =>
      match s[i]? with
      | some cc => if cc.toLower == c.toLower then [(i + 1, none)] else []
      | none => []
    | .anyc =>
      match s[i]? with
      | some cc => if cc == '\n' then [] else [(i + 1, none)]
      | none => []
    | .digit =>
      match s[i]? with
      | some cc => if cc.isDigit then [(i + 1, none)] else []
      | none => []
    | .space =>
      match s[i]? with
      | some cc => if cc.isWhitespace then [(i + 1, none)] else []
      | none => []
    | .cls neg items =>
      match s[i]? with
      | some cc => if (items.any (ciMatch cc)) != neg then [(i + 1, none)] else []
      | none => []
    | .grp a => (mtch s f a i).map (fun m => (m.1, some (i, m.1)))
    | .cat a b =>
      (mtch s f a i).flatMap (fun m =>
        (mtch s f b m.1).map (fun m2 => (m2.1, mergeG m.2 m2.2)))
    | .alt a b => mtch s f a i ++ mtch s f b i
    | .star a =>
      ((mtch s f a i).flatMap (fun m =>
        if i < m.1 then
          (mtch s f (.star a) m.1).map (fun m2 => (m2.1, mergeG m.2 m2.2))
        else [])) ++ [(i, none)]
    | .plus a =>
      (mtch s f a i).flatMap (fun m =>
        (mtch s f (.star a) m.1).map (fun m2 => (m2.1, mergeG m.2 m2.2)))
    | .opt a => mtch s f a i ++ [(i, none)]
    | .bol => if i == 0 then [(i, none)] else []
    | .eol => if i == s.length then [(i, none)] else []
    | .nla a => if (mtch s f a i).isEmpty then [(i, none)] else []

/-- Fuel sufficient for `mtch` on the script's patterns (no nested starred
subexpressions, so recursion depth is linear in pattern size plus input
length). -/
def reFuel (r : RE) (s : List Char) : Nat :=
  (reSize r + 2) * (s.length + 2)

/-- `re.search`: try every start position from the left; at the first position
admitting a match, return the engine's preferred match. -/
def searchFind (r : RE) (s : List Char) : Option (Nat × Option (Nat × Nat)) :=
  (List.range (s.length + 1)).findSome? (fun i => (mtch s (reFuel r s) r i).head?)

/-- Boolean form of `re.search`: does the pattern match anywhere in `s`? -/
def regexSearch (r : RE) (s : String) : Bool :=
  (searchFind r s.data).isSome

/-- `re.search` followed by `match.group(1)`: `none` when there is no match at
all; `some g` when a match was found, where `g` is the captured substring
(or `none` if no group participated). -/
def reSearchG1 (r : RE) (s : String) : Option (Option String) :=
  match searchFind r s.data with
  | none => none
  | some (_, none) => some none
  | some (_, some (a, b)) => some (some (String.mk ((s.data.drop a).take (b - a))))

/-- Concatenate a list of regexes. -/
def cats (l : List RE) : RE := l.foldr RE.cat RE.eps

/-- A regex matching a literal string (each character case-insensitively). -/
def str_ (s : String) : RE := cats (s.data.map RE.lit)

/-- Shorthand for `.*`. -/
def aStar : RE := RE.star RE.anyc

/-! ## Python value helpers -/

/-- ASCII lower-casing of a string (`str.lower()`; the script's data is
ASCII), computed character-wise so that it reduces in the kernel. -/
def pyLower (s : String) : String := String.mk (s.data.map Char.toLower)

/-- Python truthiness of an optional string (`None` and `''` are falsy). -/
def pyTruthyO : Option String → Bool
  | none => false
  | some s => !s.data.isEmpty

/-- Rendering of an optional string inside an f-string (`None` prints as
`"None"`). -/
def pyFStr : Option String → String
  | none => "None"
  | some s => s

/-- `path.lower() if path else ''`: lower-case a possibly-absent string,
treating `None` and `''` as the empty string. -/
def pyLowerOrEmpty : Option String → String
  | none => ""
  | some s => if s.data.isEmpty then "" else pyLower s

/-- `x or y` on optional strings: keep `x` when it is truthy, else `y`. -/
def pyOrOpt (a b : Option String) : Option String :=
  match a with
  | some s => if s.data.isEmpty then b else some s
  | none => b

/-- `s.startswith(pre)` computed on the character lists. -/
def pyStartsWith (s pre : String) : Bool := pre.data.isPrefixOf s.data

/-- Auxiliary recursion for `pyReplace`: left-to-right, non-overlapping
replacement of `pat` by `rep`. -/
def replaceListAux (pat rep : List Char) : List Char → List Char
  | [] => []
  | c :: cs =>
    if h : pat.isPrefixOf (c :: cs) ∧ pat ≠ [] then
      rep ++ replaceListAux pat rep ((c :: cs).drop pat.length)
    else
      c :: replaceListAux pat rep cs
termination_by l => l.length
decreasing_by
  · have hlen : 1 ≤ pat.length := by
      cases pat with
      | nil => exact absurd rfl h.2
      | cons x xs => simp
    simp only [List.length_drop, List.length_cons]
    omega
  · simp

/-- Model of `str.replace(pat, rep)` (for non-empty `pat`). -/
def pyReplace (s pat rep : String) : String :=
  String.mk (replaceListAux pat.data rep.data s.data)

/-- The length of `dropWhile` output never exceeds the input length. -/
theorem length_dropWhile_le' {α : Type} (p : α → Bool) (l : List α) :
    (l.dropWhile p).length ≤ l.length := by
  induction l with
  | nil => simp [List.dropWhile]
  | cons x xs ih =>
    by_cases h : p x
    · simp only [List.dropWhile, h]
      exact Nat.le_succ_of_le ih
    · simp [List.dropWhile, h]

/-- Auxiliary recursion for `collapseWs`. -/
def collapseWsAux : List Char → List Char
  | [] => []
  | c :: cs =>
    if c.isWhitespace then
      ' ' :: collapseWsAux (cs.dropWhile Char.isWhitespace)
    else
      c :: collapseWsAux cs
termination_by l => l.length
decreasing_by
  · simpa using Nat.lt_succ_of_le (length_dropWhile_le' _ _)
  · simp

/-- Model of `re.sub(r'\s+', ' ', s)`: replace each maximal whitespace run by
a single space. -/
def collapseWs (s : String) : String := String.mk (collapseWsAux s.data)

/-- Model of `str.strip()`: drop leading and trailing whitespace. -/
def pyStrip (s : String) : String :=
  String.mk (((s.data.dropWhile Char.isWhitespace).reverse.dropWhile
    Char.isWhitespace).reverse)

/-! ## Classification rules (`CLASSIFICATION_RULES`)

Each Python rule dict becomes a `Rule`; each regex string pattern becomes an
`RE` term (`str_` spells out a literal run, `aStar` is `.*`). -/

/-- One classification rule: category, access level and the two ordered
pattern lists. -/
structure Rule where
  category : String
  access_level : String
  path_patterns : List RE
  name_patterns : List RE
deriving DecidableEq

/-- `{'category': 'owner_statement', 'access_level': 'owner_only', ...}` -/
def rule_owner_statement : Rule :=
  { category := "owner_statement", access_level := "owner_only",
    path_patterns := [str_ "/Statement/", str_ "/Statements/", str_ "/Billing/"],
    name_patterns :=
      [cats [RE.bol, RE.plus RE.digit, aStar, str_ "statement"],
       cats [str_ "statement", aStar, str_ ".pdf", RE.eol],
       cats [RE.bol, RE.lit 'R', RE.plus RE.digit, RE.lit 'L', RE.plus RE.digit]] }

/-- `{'category': 'owner_ledger', ...}` -/
def rule_owner_ledger : Rule :=
  { category := "owner_ledger", access_level := "owner_only",
    path_patterns := [str_ "/Ledger/", str_ "/Account History/"],
    name_patterns := [str_ "ledger", cats [str_ "account", aStar, str_ "history"]] }

/-- `{'category': 'owner_letter', ...}` -/
def rule_owner_letter : Rule :=
  { category := "owner_letter", access_level := "owner_only",
    path_patterns := [str_ "/Owner Letters/", str_ "/Homeowner Letters/"],
    name_patterns :=
      [cats [str_ "letter", aStar, str_ "to", aStar],
       cats [str_ "demand", aStar, str_ "letter"],
       cats [str_ "collection", aStar, str_ "letter"],
       cats [str_ "notice", aStar, str_ "to", aStar, str_ "owner"]] }

/-- `{'category': 'owner_arc_submission', 'access_level': 'arc_review', ...}` -/
def rule_owner_arc_submission : Rule :=
  { category := "owner_arc_submission", access_level := "arc_review",
    path_patterns :=
      [cats [str_ "/ARC", aStar, str_ "Submission/"],
       cats [str_ "/ARC", aStar, str_ "Application/"],
       cats [str_ "/Architectural", aStar, str_ "Request/"]],
    name_patterns :=
      [cats [str_ "arc", aStar, str_ "application"],
       cats [str_ "arc", aStar, str_ "request"],
       cats [str_ "architectural", aStar, str_ "submission"]] }

/-- `{'category': 'governing_ccr', ...}` -/
def rule_governing_ccr : Rule :=
  { category := "governing_ccr", access_level := "community_public",
    path_patterns := [str_ "/Govern/", str_ "/Governing/", str_ "/CCR/"],
    name_patterns :=
      [str_ "ccr", str_ "cc&r",
       cats [str_ "covenant", RE.opt (RE.lit 's')],
       str_ "declaration",
       cats [str_ "deed", aStar, str_ "restriction"],
       str_ "restrictions"] }

/-- `{'category': 'governing_bylaws', ...}` -/
def rule_governing_bylaws : Rule :=
  { category := "governing_bylaws", access_level := "community_public",
    path_patterns := [str_ "/Govern/", str_ "/Governing/", str_ "/Bylaws/"],
    name_patterns :=
      [str_ "bylaw", str_ "by-law",
       cats [str_ "by", RE.plus RE.space, str_ "law"]] }

/-- `{'category': 'governing_rules', ...}` -/
def rule_governing_rules : Rule :=
  { category := "governing_rules", access_level := "community_public",
    path_patterns := [str_ "/Govern/", str_ "/Governing/", str_ "/Rules/"],
    name_patterns :=
      [cats [str_ "rule", RE.opt (RE.lit 's'), aStar, str_ "regulation"],
       str_ "regulation",
       str_ "policies",
       cats [str_ "policy", RE.nla (RE.cat aStar (str_ "insurance"))],
       cats [str_ "guideline", RE.opt (RE.lit 's'), RE.nla (RE.cat aStar (str_ "arc"))]] }

/-- `{'category': 'governing_arc_guidelines', ...}` -/
def rule_governing_arc_guidelines : Rule :=
  { category := "governing_arc_guidelines", access_level := "community_public",
    path_patterns := [str_ "/ARC/", str_ "/Architectural/", str_ "/Design/"],
    name_patterns :=
      [cats [str_ "arc", aStar, str_ "guide"],
       cats [str_ "architectural", aStar, str_ "guide"],
       cats [str_ "architectural", aStar, str_ "standard"],
       cats [str_ "design", aStar, str_ "guide"],
       cats [str_ "design", aStar, str_ "standard"]] }

/-- `{'category': 'community_minutes', ...}` -/
def rule_community_minutes : Rule :=
  { category := "community_minutes", access_level := "community_public",
    path_patterns := [str_ "/Minutes/", str_ "/Meeting Minutes/", str_ "/Board Meeting/"],
    name_patterns :=
      [str_ "minutes",
       cats [str_ "meeting", aStar, str_ "notes"],
       cats [str_ "board", aStar, str_ "meeting"]] }

/-- `{'category': 'community_newsletter', ...}` -/
def rule_community_newsletter : Rule :=
  { category := "community_newsletter", access_level := "community_public",
    path_patterns := [str_ "/Newsletter/", str_ "/Communications/"],
    name_patterns :=
      [str_ "newsletter", str_ "bulletin",
       cats [str_ "community", aStar, str_ "update"]] }

/-- `{'category': 'community_announcement', ...}` -/
def rule_community_announcement : Rule :=
  { category := "community_announcement", access_level := "community_public",
    path_patterns := [str_ "/Notices/", str_ "/Announcements/"],
    name_patterns :=
      [str_ "announcement",
       cats [str_ "notice", RE.nla (RE.cat aStar (str_ "violation"))],
       str_ "alert", str_ "advisory"] }

/-- `{'category': 'community_directory', 'access_level': 'board_only', ...}` -/
def rule_community_directory : Rule :=
  { category := "community_directory", access_level := "board_only",
    path_patterns := [str_ "/Directory/", str_ "/Contact/"],
    name_patterns :=
      [str_ "directory",
       cats [str_ "contact", aStar, str_ "list"],
       cats [str_ "phone", aStar, str_ "list"],
       cats [str_ "resident", aStar, str_ "list"]] }

/-- `{'category': 'board_financial', ...}` -/
def rule_board_financial : Rule :=
  { category := "board_financial", access_level := "board_only",
    path_patterns := [str_ "/Financial/", str_ "/Budget/", str_ "/Audit/", str_ "/Reserve/"],
    name_patterns :=
      [str_ "budget",
       cats [str_ "financial", aStar, str_ "statement"],
       cats [str_ "balance", aStar, str_ "sheet"],
       cats [str_ "income", aStar, str_ "statement"],
       str_ "audit",
       cats [str_ "reserve", aStar, str_ "study"],
       cats [str_ "reserve", aStar, str_ "analysis"],
       cats [str_ "bank", aStar, str_ "statement"]] }

/-- `{'category': 'board_delinquency', ...}` -/
def rule_board_delinquency : Rule :=
  { category := "board_delinquency", access_level := "board_only",
    path_patterns := [str_ "/Delinquency/", str_ "/Collections/", str_ "/Aging/"],
    name_patterns :=
      [str_ "delinquen",
       cats [str_ "aging", aStar, str_ "report"],
       cats [str_ "collection", aStar, str_ "report"],
       cats [str_ "past", aStar, str_ "due"]] }

/-- `{'category': 'board_insurance', ...}` -/
def rule_board_insurance : Rule :=
  { category := "board_insurance", access_level := "board_only",
    path_patterns := [str_ "/Insurance/"],
    name_patterns :=
      [cats [str_ "insurance", aStar, str_ "polic"],
       cats [str_ "certificate", aStar, str_ "insurance"],
       str_ "coi", str_ "coverage",
       cats [str_ "liability", aStar, str_ "policy"]] }

/-- `{'category': 'board_contracts', ...}` -/
def rule_board_contracts : Rule :=
  { category := "board_contracts", access_level := "board_only",
    path_patterns := [str_ "/Contract/", str_ "/Agreement/", str_ "/Service Agreement/"],
    name_patterns :=
      [str_ "contract",
       cats [str_ "agreement", RE.nla (RE.cat aStar (str_ "arc"))],
       cats [str_ "service", aStar, str_ "contract"],
       cats [str_ "maintenance", aStar, str_ "agreement"]] }

/-- `{'category': 'board_legal', ...}` -/
def rule_board_legal : Rule :=
  { category := "board_legal", access_level := "board_only",
    path_patterns := [str_ "/Legal/", str_ "/Attorney/", str_ "/Litigation/"],
    name_patterns :=
      [str_ "legal", str_ "attorney", str_ "lawsuit", str_ "litigation",
       cats [str_ "lien", RE.nla (RE.cat aStar (str_ "release"))],
       str_ "judgment", str_ "court"] }

/-- `{'category': 'staff_bids', ...}` -/
def rule_staff_bids : Rule :=
  { category := "staff_bids", access_level := "staff_only",
    path_patterns :=
      [str_ "/Bid/", str_ "/Bids/", str_ "/Proposal/", str_ "/Proposals/", str_ "/Quote/"],
    name_patterns :=
      [str_ "bid", str_ "proposal", str_ "estimate", str_ "quote", str_ "pricing"] }

/-- `{'category': 'staff_violations', ...}` -/
def rule_staff_violations : Rule :=
  { category := "staff_violations", access_level := "staff_only",
    path_patterns := [str_ "/Violation/", str_ "/Compliance/"],
    name_patterns :=
      [str_ "violation",
       cats [str_ "compliance", aStar, str_ "notice"],
       cats [str_ "warning", aStar, str_ "letter"],
       cats [str_ "fine", aStar, str_ "notice"]] }

/-- `{'category': 'staff_work_orders', ...}` -/
def rule_staff_work_orders : Rule :=
  { category := "staff_work_orders", access_level := "staff_only",
    path_patterns :=
      [cats [str_ "/Work", aStar, str_ "Order/"],
       cats [str_ "/Maintenance", aStar, str_ "Request/"],
       cats [str_ "/Service", aStar, str_ "Request/"]],
    name_patterns :=
      [cats [str_ "work", aStar, str_ "order"],
       cats [str_ "service", aStar, str_ "request"],
       cats [str_ "maintenance", aStar, str_ "request"],
       cats [str_ "repair", aStar, str_ "request"]] }

/-- `{'category': 'staff_correspondence', ...}` -/
def rule_staff_correspondence : Rule :=
  { category := "staff_correspondence", access_level := "staff_only",
    path_patterns :=
      [str_ "/Internal/",
       cats [str_ "/Staff", aStar, str_ "Notes/"],
       str_ "/Correspondence/"],
    name_patterns :=
      [cats [str_ "internal", aStar, str_ "memo"],
       cats [str_ "staff", aStar, str_ "note"],
       cats [str_ "correspondence", RE.nla (RE.cat aStar (str_ "owner"))]] }

/-- `{'category': 'staff_vendor', ...}` -/
def rule_staff_vendor : Rule :=
  { category := "staff_vendor", access_level := "staff_only",
    path_patterns := [str_ "/Vendor/", str_ "/W9/", str_ "/W-9/"],
    name_patterns :=
      [cats [RE.lit 'w', RE.opt (RE.lit '-'), RE.lit '9'],
       cats [str_ "vendor", aStar, str_ "info"],
       cats [str_ "vendor", aStar, str_ "contact"],
       cats [str_ "vendor", aStar, str_ "setup"]] }

/-- The fixed ordered rule list (`CLASSIFICATION_RULES`): order matters,
first match wins. -/
def CLASSIFICATION_RULES : List Rule :=
  [rule_owner_statement, rule_owner_ledger, rule_owner_letter,
   rule_owner_arc_submission,
   rule_governing_ccr, rule_governing_bylaws, rule_governing_rules,
   rule_governing_arc_guidelines,
   rule_community_minutes, rule_community_newsletter, rule_community_announcement,
   rule_community_directory,
   rule_board_financial, rule_board_delinquency, rule_board_insurance,
   rule_board_contracts, rule_board_legal,
   rule_staff_bids, rule_staff_violations, rule_staff_work_orders,
   rule_staff_correspondence, rule_staff_vendor]

/-- `COMMUNITY_PATTERNS`: community name extraction patterns. -/
def COMMUNITY_PATTERNS : List RE :=
  [cats [RE.lit '/',
         RE.alt (str_ "Round Rock") (RE.alt (str_ "North Austin") (str_ "South Austin")),
         str_ " Office/",
         RE.grp (RE.plus (RE.cls true [CI.ch '/'])),
         RE.lit '/'],
   cats [str_ "/sites/AssociationDocs/",
         RE.grp (RE.plus (RE.cls true [CI.ch '/'])),
         RE.lit '/']]

/-- `OWNER_ACCOUNT_PATTERNS`: owner account ID extraction patterns. -/
def OWNER_ACCOUNT_PATTERNS : List RE :=
  [RE.cat RE.bol (RE.grp (cats [RE.lit 'R', RE.plus RE.digit, RE.lit 'L', RE.plus RE.digit])),
   cats [str_ "Account", RE.star (RE.cls false [CI.ch ':', CI.ws, CI.ch '#']),
         RE.grp (RE.plus RE.digit)],
   cats [str_ "Acct", RE.star (RE.cls false [CI.ch ':', CI.ws, CI.ch '#']),
         RE.grp (RE.plus RE.digit)]]

/-! ## The rule engine (`classify_document`) -/

/-- Within-rule matching, as implemented: test every path pattern against the
lower-cased path (short-circuiting); only if none hit, test every name pattern
against the lower-cased name (also short-circuiting). -/
def ruleMatches (r : Rule) (path_lower name_lower : String) : Bool :=
  let matched := r.path_patterns.any (fun p => regexSearch p path_lower)
  if !matched then r.name_patterns.any (fun p => regexSearch p name_lower)
  else matched

/-- The `for rule in CLASSIFICATION_RULES` loop: first matching rule wins,
otherwise the default `("uncategorized", "staff_only")`. -/
def classifyLoop (path_lower name_lower : String) : List Rule → String × String
  | [] => ("uncategorized", "staff_only")
  | r :: rs =>
    if ruleMatches r path_lower name_lower then (r.category, r.access_level)
    else classifyLoop path_lower name_lower rs

/-- `classify_document(path, name)`: lower-case the inputs (absent input is
treated as the empty string) and return the first matching rule's
`(category, access_level)`, defaulting to `("uncategorized", "staff_only")`. -/
def classify_document (path name : Option String) : String × String :=
  classifyLoop (pyLowerOrEmpty path) (pyLowerOrEmpty name) CLASSIFICATION_RULES

/-- Spec-variant within-rule matching used by the refinement claim: a rule
matches when some path pattern matches the path OR some name pattern matches
the name, with no staging. -/
def ruleMatchesFlat (r : Rule) (path_lower name_lower : String) : Bool :=
  r.path_patterns.any (fun p => regexSearch p path_lower) ||
    r.name_patterns.any (fun p => regexSearch p name_lower)

/-- Rule loop over the flat-OR matcher. -/
def classifyLoopFlat (path_lower name_lower : String) : List Rule → String × String
  | [] => ("uncategorized", "staff_only")
  | r :: rs =>
    if ruleMatchesFlat r path_lower name_lower then (r.category, r.access_level)
    else classifyLoopFlat path_lower name_lower rs

/-- Spec-variant classifier built on the flat-OR matcher. -/
def classify_document_flat (path name : Option String) : String × String :=
  classifyLoopFlat (pyLowerOrEmpty path) (pyLowerOrEmpty name) CLASSIFICATION_RULES

/-! ## Metadata extractors -/

/-- Normalisation of a captured community name: `community.replace('%20', ' ')`
followed by `re.sub(r'\s+', ' ', community).strip()`. -/
def cleanupCommunity (c : String) : String :=
  pyStrip (collapseWs (pyReplace c "%20" " "))

/-- The `for pattern in COMMUNITY_PATTERNS` loop: first pattern whose search
matches wins; its group(1) capture is cleaned up and returned.  (In every
community pattern the group always participates in a successful match.) -/
def commLoop : List RE → String → Option String
  | [], _ => none
  | pat :: ps, p =>
    match reSearchG1 pat p with
    | some (some community) => some (cleanupCommunity community)
    | some none => none
    | none => commLoop ps p

/-- `extract_community_name(path)`: `None` for falsy input, else the first
community pattern capture (cleaned up), or `None` when nothing matches.
Never raises. -/
def extract_community_name (path : Option String) : Option String :=
  match path with
  | none => none
  | some p => if p.data.isEmpty then none else commLoop COMMUNITY_PATTERNS p

/-- `text = f"{name} {path}" if path else name`: the text scanned by
`extract_owner_account`.  When `path` is falsy and `name` is `None`, this is
`None`. -/
def owner_text (name path : Option String) : Option String :=
  if pyTruthyO path then some (pyFStr name ++ " " ++ pyFStr path) else name

/-- The `for pattern in OWNER_ACCOUNT_PATTERNS` loop over a genuine string:
first pattern whose search matches wins; its group(1) is returned. -/
def ownerScan : List RE → String → Option String
  | [], _ => none
  | pat :: ps, t =>
    match reSearchG1 pat t with
    | some g => g
    | none => ownerScan ps t

/-- `extract_owner_account(name, path)`: scan the combined text for the first
account-id pattern.  When the combined text is `None` (falsy `path` and `None`
`name`), the first `re.search(pattern, None)` call raises `TypeError`, which
this model returns as an `Except.error`. -/
def extract_owner_account (name path : Option String) : Except String (Option String) :=
  match owner_text name path with
  | none => Except.error "TypeError: expected string or bytes-like object"
  | some t => Except.ok (ownerScan OWNER_ACCOUNT_PATTERNS t)

/-! ## Index client -/

/-- A document record as returned by the search index.  A `none` field models
a field that is absent from the returned record (`doc.get` then yields its
default). -/
structure Doc where
  id : Option String := none
  name : Option String := none
  path : Option String := none
  community_name : Option String := none
deriving DecidableEq

/-- The transport underlying `search_documents`: given `skip`, `top` and the
unclassified-only flag, either a successful response `(value, @odata.count)`
or `none` for a non-success status code. -/
def SearchEnv : Type := Nat → Nat → Bool → Option (List Doc × Nat)

/-- The value returned by `search_documents`: on success the two-tuple
`(records, count)`; on a non-success response the bare empty list `[]`. -/
inductive SearchRet where
  | tup (records : List Doc) (count : Nat)
  | emptyList
deriving DecidableEq

/-- `search_documents(skip, top, unclassified_only)`: returns the tuple
`(data.get('value', []), data.get('@odata.count', 0))` on HTTP 200, and the
bare list `[]` otherwise. -/
def search_documents (env : SearchEnv) (skip top : Nat) (unclassified_only : Bool) :
    SearchRet :=
  match env skip top unclassified_only with
  | some (value, count) => .tup value count
  | none => .emptyList

/-- Tuple unpacking `docs, count = search_documents(...)` as performed by the
callers: unpacking the bare empty list raises `ValueError`. -/
def unpack2 : SearchRet → Except String (List Doc × Nat)
  | .tup records count => Except.ok (records, count)
  | .emptyList =>
    Except.error "ValueError: not enough values to unpack (expected 2, got 0)"

/-- An update to be merged into the index.  `none` optional fields model keys
absent from the update dict (never an explicit null). -/
structure Update where
  id : Option String := none
  document_category : String
  access_level : String
  classified_at : String
  community_name : Option String := none
  owner_account_id : Option String := none
deriving DecidableEq

/-- Python truthiness of `r.get('status')` for a batch-response item
(`none` models an absent status key). -/
def pyTruthyStatus : Option Bool → Bool
  | some b => b
  | none => false

/-- `update_documents_batch(updates)`: on transport success, count the truthy
per-item statuses of the response's `value` list as `succeeded` and let
`failed = len(updates) - succeeded` (Python integer arithmetic, hence `Int`);
on a non-success response, `(0, len(updates))`. -/
def update_documents_batch (resp : Option (List (Option Bool))) (updates : List Update) :
    Int × Int :=
  match resp with
  | some value =>
    let succeeded : Int := ((value.filter pyTruthyStatus).length : Int)
    (succeeded, (updates.length : Int) - succeeded)
  | none => (0, (updates.length : Int))

/-- The transport underlying `update_documents_batch` inside the orchestrator:
for a submitted batch, either the per-item statuses of a successful response
or `none` for a non-success status code. -/
def BatchEnv : Type := List Update → Option (List (Option Bool))

/-! ## Sync orchestrator (`run_classification`) -/

/-- The `stats` accumulator of `run_classification`. -/
structure RunStats where
  processed : Nat
  updated : Int
  failed : Int
  by_category : List (String × Nat)
  by_access_level : List (String × Nat)
deriving DecidableEq

/-- The initial `stats` dict. -/
def initStats : RunStats :=
  { processed := 0, updated := 0, failed := 0, by_category := [], by_access_level := [] }

/-- `d[k] = d.get(k, 0) + 1` on an insertion-ordered association list. -/
def bump : List (String × Nat) → String → List (String × Nat)
  | [], k => [(k, 1)]
  | (k', v) :: rest, k =>
    if k' = k then (k', v + 1) :: rest else (k', v) :: bump rest k

/-- The per-document body of the orchestrator loop: classify, extract
community and (for owner documents) the owner account, and build the merge
update.  The only possible error is the `TypeError` from
`extract_owner_account` (unreachable here because `doc.get` supplies string
defaults). -/
def processDoc (now : String) (doc : Doc) : Except String Update := do
  let name := doc.name.getD ""
  let path := doc.path.getD ""
  let ca := classify_document (some path) (some name)
  let community := pyOrOpt (extract_community_name (some path)) doc.community_name
  let owner_account ←
    if pyStartsWith ca.1 "owner_" then extract_owner_account (some name) (some path)
    else pure none
  pure
    { id := doc.id
      document_category := ca.1
      access_level := ca.2
      classified_at := now
      community_name := if pyTruthyO community then community else none
      owner_account_id := if pyTruthyO owner_account then owner_account else none }

/-- The `for doc in docs` loop of one page: returns the updates appended to
the batch (in order), the stats after the page, and the uncaught exception if
one occurred part-way (later documents are then not processed). -/
def processPage (now : String) : List Doc → RunStats →
    List Update × RunStats × Option String
  | [], stats => ([], stats, none)
  | doc :: rest, stats =>
    match processDoc now doc with
    | .error e => ([], stats, some e)
    | .ok u =>
      let stats' :=
        { stats with
          by_category := bump stats.by_category u.document_category
          by_access_level := bump stats.by_access_level u.access_level
          processed := stats.processed + 1 }
      let r := processPage now rest stats'
      (u :: r.1, r.2.1, r.2.2)

/-- The mutable state of the pagination loop, together with the observable
call traces: search calls issued `(skip, top)`, page sizes retrieved, and
batches flushed through `update_documents_batch`. -/
structure LoopState where
  skip : Nat
  batch : List Update
  stats : RunStats
  searches : List (Nat × Nat)
  pages : List Nat
  flushed : List (List Update)
deriving DecidableEq

/-- The `while skip < total_count` loop.  Fuel bounds the iteration count
(`run_classification` supplies `total_count + 1`, enough for any positive
batch size; exhaustion models non-termination).  The second component is the
uncaught exception that aborted the loop, if any. -/
def runLoop (env : SearchEnv) (bre : BatchEnv) (uo dry_run : Bool) (bs : Nat)
    (now : String) (total : Nat) : Nat → LoopState → LoopState × Option String
  | 0, st => (st, some "non-termination")
  | f + 1, st =>
    if st.skip < total then
      match unpack2 (search_documents env st.skip bs uo) with
      | .error e => ({ st with searches := st.searches ++ [(st.skip, bs)] }, some e)
      | .ok (docs, _) =>
        let st1 := { st with
          searches := st.searches ++ [(st.skip, bs)]
          pages := st.pages ++ [docs.length] }
        if docs.isEmpty then (st1, none)
        else
          let pr := processPage now docs st1.stats
          let st2 := { st1 with batch := st1.batch ++ pr.1, stats := pr.2.1 }
          match pr.2.2 with
          | some e => (st2, some e)
          | none =>
            let st3 :=
              if !dry_run && bs ≤ st2.batch.length then
                let sf := update_documents_batch (bre st2.batch) st2.batch
                { st2 with
                  stats := { st2.stats with
                    updated := st2.stats.updated + sf.1
                    failed := st2.stats.failed + sf.2 }
                  flushed := st2.flushed ++ [st2.batch]
                  batch := [] }
              else st2
            runLoop env bre uo dry_run bs now total f { st3 with skip := st3.skip + bs }
    else (st, none)

/-- The observable outcome of `run_classification`: the uncaught exception (if
the run crashed), whether the final report was printed, whether the run took
the early "no documents" exit, the final stats, and the call traces. -/
structure RunResult where
  crash : Option String
  reported : Bool
  earlyExit : Bool
  stats : RunStats
  searches : List (Nat × Nat)
  pages : List Nat
  flushed : List (List Update)
  pending : List Update
deriving DecidableEq

/-- The loop state at entry into the pagination loop: `skip = 0`, empty batch,
fresh stats, and the initial count query already recorded. -/
def initLoopState : LoopState :=
  { skip := 0, batch := [], stats := initStats, searches := [(0, 1)]
    pages := [], flushed := [] }

/-- The tail of `run_classification` after the pagination loop: surface an
uncaught exception, otherwise perform the final flush of a live run with a
non-empty pending batch and emit the final report. -/
def finishRun (bre : BatchEnv) (dry_run : Bool) (r : LoopState × Option String) :
    RunResult :=
  match r.2 with
  | some e =>
    { crash := some e, reported := false, earlyExit := false, stats := r.1.stats
      searches := r.1.searches, pages := r.1.pages, flushed := r.1.flushed
      pending := r.1.batch }
  | none =>
    if !dry_run && !r.1.batch.isEmpty then
      let sf := update_documents_batch (bre r.1.batch) r.1.batch
      { crash := none, reported := true, earlyExit := false
        stats := { r.1.stats with
          updated := r.1.stats.updated + sf.1
          failed := r.1.stats.failed + sf.2 }
        searches := r.1.searches, pages := r.1.pages
        flushed := r.1.flushed ++ [r.1.batch], pending := [] }
    else
      { crash := none, reported := true, earlyExit := false, stats := r.1.stats
        searches := r.1.searches, pages := r.1.pages, flushed := r.1.flushed
        pending := r.1.batch }

/-- `run_classification(reclassify_all, dry_run, batch_size)`: count, paginate,
classify, batch, flush, and report.  `now` stands for the
`datetime.utcnow()` timestamp. -/
def run_classification (env : SearchEnv) (bre : BatchEnv)
    (reclassify_all dry_run : Bool) (batch_size : Nat) (now : String) : RunResult :=
  match unpack2 (search_documents env 0 1 (!reclassify_all)) with
  | .error e =>
    { crash := some e, reported := false, earlyExit := false, stats := initStats
      searches := [(0, 1)], pages := [], flushed := [], pending := [] }
  | .ok (_, total_count) =>
    if total_count = 0 then
      { crash := none, reported := false, earlyExit := true, stats := initStats
        searches := [(0, 1)], pages := [], flushed := [], pending := [] }
    else
      finishRun bre dry_run
        (runLoop env bre (!reclassify_all) dry_run batch_size now total_count
          (total_count + 1) initLoopState)

/-! ## Rule-engine lemmas -/

/-- Staged within-rule matching agrees pointwise with the flat-OR variant. -/
theorem ruleMatches_eq_flat (r : Rule) (pl nl : String) :
    ruleMatches r pl nl = ruleMatchesFlat r pl nl := by
  unfold ruleMatches ruleMatchesFlat
  cases h : r.path_patterns.any (fun p => regexSearch p pl) <;> simp [h]

/-- The two rule loops agree on every rule list. -/
theorem classifyLoop_eq_flat (pl nl : String) (rules : List Rule) :
    classifyLoop pl nl rules = classifyLoopFlat pl nl rules := by
  induction rules with
  | nil => rfl
  | cons r rs ih =>
    simp only [classifyLoop, classifyLoopFlat, ruleMatches_eq_flat]
    split <;> simp [ih]

/-- If no rule in the list matches, the loop returns the default. -/
theorem classifyLoop_default (pl nl : String) (rules : List Rule)
    (h : ∀ r ∈ rules, ruleMatches r pl nl = false) :
    classifyLoop pl nl rules = ("uncategorized", "staff_only") := by
  induction rules with
  | nil => rfl
  | cons r rs ih =>
    simp only [classifyLoop, h r (by simp)]
    exact ih (fun r' hr' => h r' (by simp [hr']))

/-- If the rule at index `i` matches and no earlier rule does, the loop
returns that rule's pair. -/
theorem classifyLoop_firstMatch (pl nl : String) :
    ∀ (rules : List Rule) (i : Nat) (R : Rule),
      rules[i]? = some R →
      (∀ k R', k < i → rules[k]? = some R' → ruleMatches R' pl nl = false) →
      ruleMatches R pl nl = true →
      classifyLoop pl nl rules = (R.category, R.access_level) := by
  intro rules
  induction rules with
  | nil => intro i R h; simp at h
  | cons r rs ih =>
    intro i R hget hearlier hmatch
    cases i with
    | zero =>
      simp only [List.getElem?_cons_zero, Option.some.injEq] at hget
      subst hget
      simp [classifyLoop, hmatch]
    | succ i =>
      have h0 : ruleMatches r pl nl = false :=
        hearlier 0 r (Nat.succ_pos i) (by simp)
      simp only [List.getElem?_cons_succ] at hget
      simp only [classifyLoop, h0, Bool.false_eq_true, if_false]
      exact ih i R hget
        (fun k R' hk hget' =>
          hearlier (k + 1) R' (Nat.succ_lt_succ hk) (by simpa using hget'))
        hmatch

/-! ## Claim theorems: the rule engine -/

/-- C3 (counterexample): the claim "for ANY two rules R1 before R2 that both
match, the result is R1's pair" fails as stated: for path `"/Govern/"` both
`rule_governing_bylaws` (index 5) and `rule_governing_rules` (index 6) match,
yet `classify_document` returns the pair of the even earlier matching rule
`rule_governing_ccr`, not that of `rule_governing_bylaws`. -/
theorem c3_counterexample :
    CLASSIFICATION_RULES[5]? = some rule_governing_bylaws ∧
    CLASSIFICATION_RULES[6]? = some rule_governing_rules ∧
    ruleMatches rule_governing_bylaws (pyLowerOrEmpty (some "/Govern/"))
      (pyLowerOrEmpty (some "")) = true ∧
    ruleMatches rule_governing_rules (pyLowerOrEmpty (some "/Govern/"))
      (pyLowerOrEmpty (some "")) = true ∧
    classify_document (some "/Govern/") (some "") ≠
      (rule_governing_bylaws.category, rule_governing_bylaws.access_level) := by
  refine ⟨rfl, rfl, by decide, by decide, by decide⟩

/-- C3 (amended): rule precedence holds in first-match form: for every
`(path, name)` pair and rules R1 (index `i`) before R2 (index `j`), if both
match and additionally no rule declared before R1 matches, then
`classify_document` returns R1's `(category, access_level)`. -/
theorem c3_first_matching_rule_wins (path name : Option String) (i j : Nat)
    (R1 R2 : Rule)
    (h1 : CLASSIFICATION_RULES[i]? = some R1)
    (h2 : CLASSIFICATION_RULES[j]? = some R2)
    (hij : i < j)
    (hearlier : ∀ k R', k < i → CLASSIFICATION_RULES[k]? = some R' →
      ruleMatches R' (pyLowerOrEmpty path) (pyLowerOrEmpty name) = false)
    (hm1 : ruleMatches R1 (pyLowerOrEmpty path) (pyLowerOrEmpty name) = true)
    (hm2 : ruleMatches R2 (pyLowerOrEmpty path) (pyLowerOrEmpty name) = true) :
    classify_document path name = (R1.category, R1.access_level) :=
  classifyLoop_firstMatch _ _ CLASSIFICATION_RULES i R1 h1 hearlier hm1

/-- C3 (witness): path `"/Statement/"`, name `"budget"`: R1 is the first rule
(owner_statement, matching on path), R2 is `rule_board_financial` at index 12
(matching on name), and classification returns R1's pair. -/
theorem c3_witness :
    classify_document (some "/Statement/") (some "budget") =
      ("owner_statement", "owner_only") :=
  c3_first_matching_rule_wins (some "/Statement/") (some "budget") 0 12
    rule_owner_statement rule_board_financial rfl rfl (by omega)
    (fun k R' hk _ => absurd hk (Nat.not_lt_zero k))
    (by decide) (by decide)

/-- C4: if no rule's patterns match the lower-cased inputs — including `none`
or empty path/name, which are lower-cased to the empty string — then
`classify_document` returns exactly `("uncategorized", "staff_only")`. -/
theorem c4_default_fallback (path name : Option String)
    (h : ∀ r ∈ CLASSIFICATION_RULES,
      ruleMatches r (pyLowerOrEmpty path) (pyLowerOrEmpty name) = false) :
    classify_document path name = ("uncategorized", "staff_only") :=
  classifyLoop_default _ _ CLASSIFICATION_RULES h

/-- C4 (witness): absent path and name `"random_file.pdf"` match no rule and
fall back to the default. -/
theorem c4_witness :
    (∀ r ∈ CLASSIFICATION_RULES,
      ruleMatches r (pyLowerOrEmpty none)
        (pyLowerOrEmpty (some "random_file.pdf")) = false) ∧
    classify_document none (some "random_file.pdf") =
      ("uncategorized", "staff_only") :=
  ⟨by decide, c4_default_fallback none (some "random_file.pdf") (by decide)⟩

/-- C10: the implemented staged within-rule matching (path patterns first,
name patterns only if no path pattern hit) classifies every `(path, name)`
pair exactly like the unstaged flat-OR variant. -/
theorem c10_staged_equals_flat_or (path name : Option String) :
    classify_document path name = classify_document_flat path name :=
  classifyLoop_eq_flat _ _ CLASSIFICATION_RULES

/-! ## Claim theorems: extractors -/

/-- C2: the claim that the extractors never raise fails on the code:
`extract_owner_account(None, None)` (and `(None, '')`) builds `text = None`
and hands it to `re.search`, which raises `TypeError`.  By contrast
`extract_community_name` really does return `None` on absent input. -/
theorem c2_extract_owner_account_raises_on_none :
    extract_owner_account none none =
      Except.error "TypeError: expected string or bytes-like object" ∧
    extract_owner_account none (some "") =
      Except.error "TypeError: expected string or bytes-like object" ∧
    extract_community_name none = none :=
  ⟨rfl, rfl, rfl⟩

/-! ## Claim theorems: index client and orchestrator -/

/-- C7: for every batch of N updates, `update_documents_batch` returns counts
with `succeeded + failed = N` (Python integer arithmetic), and on a transport
failure it returns exactly `(0, N)`. -/
theorem c7_batch_accounting (resp : Option (List (Option Bool)))
    (updates : List Update) :
    (update_documents_batch resp updates).1 + (update_documents_batch resp updates).2 =
      (updates.length : Int) ∧
    update_documents_batch none updates = (0, (updates.length : Int)) := by
  refine ⟨?_, rfl⟩
  cases resp with
  | none => simp [update_documents_batch]
  | some value => simp [update_documents_batch]

/-- A search transport that always reports a non-success status. -/
def failSearchEnv : SearchEnv := fun _ _ _ => none

/-- A search transport whose count query (`top = 1`) succeeds with 5 documents
but whose page queries fail. -/
def midFailSearchEnv : SearchEnv := fun _ top _ => if top == 1 then some ([], 5) else none

/-- A batch transport that always reports a non-success status. -/
def noBatchEnv : BatchEnv := fun _ => none

/-- C1: the claim that a non-success search response never crashes the run
fails on the code: `search_documents` returns the bare list `[]` on a
non-success response, and both call sites unpack it as a 2-tuple, raising
`ValueError` — whether the failure hits the initial count query or a later
page query — so the run aborts without printing its final report. -/
theorem c1_transport_failure_crashes_run :
    (run_classification failSearchEnv noBatchEnv false false 100 "T").crash =
      some "ValueError: not enough values to unpack (expected 2, got 0)" ∧
    (run_classification failSearchEnv noBatchEnv false false 100 "T").reported = false ∧
    (run_classification midFailSearchEnv noBatchEnv false false 100 "T").crash =
      some "ValueError: not enough values to unpack (expected 2, got 0)" ∧
    (run_classification midFailSearchEnv noBatchEnv false false 100 "T").reported = false ∧
    (run_classification midFailSearchEnv noBatchEnv false false 100 "T").searches =
      [(0, 1), (0, 100)] :=
  ⟨rfl, rfl, rfl, rfl, rfl⟩

/-- On genuine string arguments (as supplied by the orchestrator via
`doc.get(..., '')`), `extract_owner_account` never errors. -/
theorem extract_owner_account_str_ok (n p : String) :
    extract_owner_account (some n) (some p) =
      Except.ok (ownerScan OWNER_ACCOUNT_PATTERNS (pyFStr (owner_text (some n) (some p)))) := by
  unfold extract_owner_account owner_text
  by_cases h : pyTruthyO (some p) <;> simp [h, pyFStr]

/-- A string different from `""` has a non-empty character list. -/
theorem data_isEmpty_false_of_ne (s : String) (h : s ≠ "") :
    s.data.isEmpty = false := by
  cases hd : s.data with
  | nil => exact absurd (by cases s; subst hd; rfl) h
  | cons x xs => rfl

/-- The update `processDoc` builds, in closed form (used only to reason about
`processDoc`; `processDoc` itself is the source translation). -/
def processDocPure (now : String) (doc : Doc) : Update :=
  let name := doc.name.getD ""
  let path := doc.path.getD ""
  let ca := classify_document (some path) (some name)
  let community := pyOrOpt (extract_community_name (some path)) doc.community_name
  let owner_account :=
    if pyStartsWith ca.1 "owner_" then
      ownerScan OWNER_ACCOUNT_PATTERNS (pyFStr (owner_text (some name) (some path)))
    else none
  { id := doc.id
    document_category := ca.1
    access_level := ca.2
    classified_at := now
    community_name := if pyTruthyO community then community else none
    owner_account_id := if pyTruthyO owner_account then owner_account else none }

/-- `processDoc` never errors (its only failure source is
`extract_owner_account`, which is total on string arguments) and returns the
closed-form update. -/
theorem processDoc_eq (now : String) (doc : Doc) :
    processDoc now doc = Except.ok (processDocPure now doc) := by
  unfold processDoc processDocPure
  by_cases h : pyStartsWith
      (classify_document (some (doc.path.getD "")) (some (doc.name.getD ""))).1 "owner_" <;>
    simp [h, extract_owner_account_str_ok, bind, Except.bind, pure, Except.pure]

/-- `processDoc` never errors. -/
theorem processDoc_ok (now : String) (doc : Doc) :
    ∃ u, processDoc now doc = Except.ok u :=
  ⟨processDocPure now doc, processDoc_eq now doc⟩

/-- C5: owner-account gating.  For any processed document, when the computed
category does not start with `owner_`, the built update carries no
`owner_account_id` field (regardless of what the name/path would match); when
it does and an account-id pattern captures a (non-empty) id, the update
carries exactly that id. -/
theorem c5_owner_account_gating (now : String) (doc : Doc) (u : Update)
    (h : processDoc now doc = Except.ok u) :
    (pyStartsWith (classify_document (some (doc.path.getD ""))
        (some (doc.name.getD ""))).1 "owner_" = false →
      u.owner_account_id = none) ∧
    (∀ acct : String,
      pyStartsWith (classify_document (some (doc.path.getD ""))
        (some (doc.name.getD ""))).1 "owner_" = true →
      extract_owner_account (some (doc.name.getD "")) (some (doc.path.getD "")) =
        Except.ok (some acct) →
      acct ≠ "" →
      u.owner_account_id = some acct) := by
  rw [processDoc_eq] at h
  have hu : u = processDocPure now doc := (Except.ok.inj h).symm
  subst hu
  constructor
  · intro hcat
    simp [processDocPure, hcat]
  · intro acct hcat hext hacct
    have hscan : ownerScan OWNER_ACCOUNT_PATTERNS
        (pyFStr (owner_text (some (doc.name.getD "")) (some (doc.path.getD "")))) =
        some acct := by
      rw [extract_owner_account_str_ok] at hext
      exact Except.ok.inj hext
    have hne : acct.data.isEmpty = false := data_isEmpty_false_of_ne acct hacct
    simp [processDocPure, hcat, hscan, pyTruthyO, hne]

/-- Concrete document for the C5 witness: an owner statement with an
account-id in its name. -/
def c5doc : Doc :=
  { id := some "doc1", name := some "R0460131L0199873_statement.pdf",
    path := some "", community_name := none }

/-- The update `processDoc` builds for `c5doc`. -/
def c5upd : Update :=
  { id := some "doc1", document_category := "owner_statement",
    access_level := "owner_only", classified_at := "T",
    community_name := none, owner_account_id := some "R0460131L0199873" }

/-- C5 (witness): for the concrete owner statement `c5doc`, the captured
account id `R0460131L0199873` is written into the update. -/
theorem c5_witness :
    processDoc "T" c5doc = Except.ok c5upd ∧
    c5upd.owner_account_id = some "R0460131L0199873" :=
  ⟨rfl, (c5_owner_account_gating "T" c5doc c5upd rfl).2
    "R0460131L0199873" rfl rfl (by decide)⟩

/-- C6: community-name preservation.  If community extraction finds nothing
for the document's path but the document already has a (truthy) stored
`community_name`, the update built by the orchestrator carries that stored
value — it is never mapped to null. -/
theorem c6_community_preserved (now : String) (doc : Doc) (u : Update) (c : String)
    (h : processDoc now doc = Except.ok u)
    (hex : extract_community_name (some (doc.path.getD "")) = none)
    (hstored : doc.community_name = some c) (hc : c ≠ "") :
    u.community_name = some c := by
  rw [processDoc_eq] at h
  have hu : u = processDocPure now doc := (Except.ok.inj h).symm
  subst hu
  have hne : c.data.isEmpty = false := data_isEmpty_false_of_ne c hc
  simp [processDocPure, hex, hstored, pyOrOpt, pyTruthyO, hne]

/-- Concrete document for the C6 witness: no community pattern matches its
path, but it has a stored community name. -/
def c6doc : Doc :=
  { id := some "doc2", name := some "n", path := some "/x/",
    community_name := some "Oak Hill" }

/-! ## Dry-run and pagination lemmas -/

/-- The parts of `RunStats` that are independent of flushing: processed count
and both frequency tables. -/
def statsTablesEq (a b : RunStats) : Prop :=
  a.processed = b.processed ∧ a.by_category = b.by_category ∧
    a.by_access_level = b.by_access_level

/-- A non-empty list has `isEmpty = false`. -/
theorem list_isEmpty_false_of_ne {α : Type} (l : List α) (h : l ≠ []) :
    l.isEmpty = false := by
  cases l with
  | nil => exact absurd rfl h
  | cons x xs => rfl

/-- `processPage` produces the same updates and the same crash for any two
stats accumulators, and preserves agreement of the flush-independent stats
parts. -/
theorem processPage_congr (now : String) (docs : List Doc) :
    ∀ s1 s2 : RunStats, statsTablesEq s1 s2 →
      (processPage now docs s1).1 = (processPage now docs s2).1 ∧
      (processPage now docs s1).2.2 = (processPage now docs s2).2.2 ∧
      statsTablesEq (processPage now docs s1).2.1 (processPage now docs s2).2.1 := by
  induction docs with
  | nil => exact fun s1 s2 h => ⟨rfl, rfl, h⟩
  | cons d rest ih =>
    intro s1 s2 h
    simp only [processPage, processDoc_eq]
    obtain ⟨hp, hc, ha⟩ := h
    have h' : statsTablesEq
        { s1 with
          by_category := bump s1.by_category (processDocPure now d).document_category
          by_access_level := bump s1.by_access_level (processDocPure now d).access_level
          processed := s1.processed + 1 }
        { s2 with
          by_category := bump s2.by_category (processDocPure now d).document_category
          by_access_level := bump s2.by_access_level (processDocPure now d).access_level
          processed := s2.processed + 1 } := by
      refine ⟨by simp [hp], by simp [hc], by simp [ha]⟩
    obtain ⟨hus, hcr, ht⟩ := ih _ _ h'
    exact ⟨by simp [hus], by simpa using hcr, by simpa using ht⟩

/-- `processPage` never crashes (its documents always process via
`processDoc_eq`) and appends exactly one update per document. -/
theorem processPage_total (now : String) : ∀ (docs : List Doc) (stats : RunStats),
    (processPage now docs stats).2.2 = none ∧
    (processPage now docs stats).1.length = docs.length := by
  intro docs
  induction docs with
  | nil => exact fun stats => ⟨rfl, rfl⟩
  | cons d rest ih =>
    intro stats
    simp only [processPage, processDoc_eq]
    obtain ⟨h1, h2⟩ := ih _
    exact ⟨by simpa using h1, by simp [h2]⟩

/-- The state after one successful (no-crash, non-empty-page) iteration of the
pagination loop: record the search call and page size, append the page's
updates, adopt its stats, flush when live and the batch reached the
threshold, and advance `skip`. -/
def stepState (bre : BatchEnv) (dry : Bool) (bs : Nat) (now : String)
    (st : LoopState) (docs : List Doc) : LoopState :=
  let pr := processPage now docs st.stats
  let st2 : LoopState :=
    { skip := st.skip, batch := st.batch ++ pr.1, stats := pr.2.1
      searches := st.searches ++ [(st.skip, bs)], pages := st.pages ++ [docs.length]
      flushed := st.flushed }
  let st3 :=
    if !dry && bs ≤ st2.batch.length then
      { st2 with
        stats := { st2.stats with
          updated := st2.stats.updated + (update_documents_batch (bre st2.batch) st2.batch).1
          failed := st2.stats.failed + (update_documents_batch (bre st2.batch) st2.batch).2 }
        flushed := st2.flushed ++ [st2.batch]
        batch := [] }
    else st2
  { st3 with skip := st3.skip + bs }

/-- One successful loop iteration rewrites to `stepState`. -/
theorem runLoop_step (env : SearchEnv) (bre : BatchEnv) (uo dry : Bool) (bs : Nat)
    (now : String) (total : Nat) (f : Nat) (st : LoopState)
    (hlt : st.skip < total) (docs : List Doc) (cnt : Nat)
    (henv : env st.skip bs uo = some (docs, cnt)) (hne : docs ≠ [])
    (hcr : (processPage now docs st.stats).2.2 = none) :
    runLoop env bre uo dry bs now total (f + 1) st =
      runLoop env bre uo dry bs now total f (stepState bre dry bs now st docs) := by
  have hie : ¬docs.isEmpty = true := by
    simp [list_isEmpty_false_of_ne docs hne]
  simp only [runLoop, search_documents, henv, unpack2, stepState]
  rw [if_pos hlt, if_neg hie]
  simp only [hcr]

/-- A loop invocation whose position has reached the total exits at once. -/
theorem runLoop_exit (env : SearchEnv) (bre : BatchEnv) (uo dry : Bool) (bs : Nat)
    (now : String) (total : Nat) (f : Nat) (st : LoopState)
    (hge : ¬st.skip < total) :
    runLoop env bre uo dry bs now total (f + 1) st = (st, none) := by
  simp only [runLoop]
  rw [if_neg hge]

/-- `stepState` always advances the position by the batch size. -/
theorem stepState_skip (bre : BatchEnv) (dry : Bool) (bs : Nat) (now : String)
    (st : LoopState) (docs : List Doc) :
    (stepState bre dry bs now st docs).skip = st.skip + bs := by
  simp only [stepState]
  split <;> rfl

/-- A dry-run step flushes nothing. -/
theorem stepState_dry_flushed (bre : BatchEnv) (bs : Nat) (now : String)
    (st : LoopState) (docs : List Doc) :
    (stepState bre true bs now st docs).flushed = st.flushed := by
  simp [stepState]

/-- A dry-run step's stats are exactly the page's stats. -/
theorem stepState_dry_stats (bre : BatchEnv) (bs : Nat) (now : String)
    (st : LoopState) (docs : List Doc) :
    (stepState bre true bs now st docs).stats = (processPage now docs st.stats).2.1 := by
  simp [stepState]

/-- Flushing never changes the flush-independent stats parts. -/
theorem stepState_stats_tables (bre : BatchEnv) (dry : Bool) (bs : Nat) (now : String)
    (st : LoopState) (docs : List Doc) :
    statsTablesEq (processPage now docs st.stats).2.1
      (stepState bre dry bs now st docs).stats := by
  simp only [stepState]
  split
  · exact ⟨rfl, rfl, rfl⟩
  · exact ⟨rfl, rfl, rfl⟩

/-- `stepState` records exactly one search call, at the pre-step position. -/
theorem stepState_searches (bre : BatchEnv) (dry : Bool) (bs : Nat) (now : String)
    (st : LoopState) (docs : List Doc) :
    (stepState bre dry bs now st docs).searches = st.searches ++ [(st.skip, bs)] := by
  simp only [stepState]
  split <;> rfl

/-- `stepState` records exactly one page, of the fetched size. -/
theorem stepState_pages (bre : BatchEnv) (dry : Bool) (bs : Nat) (now : String)
    (st : LoopState) (docs : List Doc) :
    (stepState bre dry bs now st docs).pages = st.pages ++ [docs.length] := by
  simp only [stepState]
  split <;> rfl

/-- A live step whose accumulated batch reaches the threshold flushes it. -/
theorem stepState_live_flush (bre : BatchEnv) (bs : Nat) (now : String)
    (st : LoopState) (docs : List Doc)
    (h : bs ≤ (st.batch ++ (processPage now docs st.stats).1).length) :
    (stepState bre false bs now st docs).flushed =
      st.flushed ++ [st.batch ++ (processPage now docs st.stats).1] ∧
    (stepState bre false bs now st docs).batch = [] := by
  simp only [stepState]
  split
  · exact ⟨rfl, rfl⟩
  · next hneg => exact absurd (by simpa [List.length_append] using h) hneg

/-- A live step whose accumulated batch stays below the threshold keeps it. -/
theorem stepState_live_noflush (bre : BatchEnv) (bs : Nat) (now : String)
    (st : LoopState) (docs : List Doc)
    (h : ¬bs ≤ (st.batch ++ (processPage now docs st.stats).1).length) :
    (stepState bre false bs now st docs).flushed = st.flushed ∧
    (stepState bre false bs now st docs).batch =
      st.batch ++ (processPage now docs st.stats).1 := by
  simp only [stepState]
  split
  · next hpos =>
    exact absurd (by simpa [List.length_append] using hpos) h
  · exact ⟨rfl, rfl⟩

/-- Core dry-run invariant of the pagination loop: starting from states with
the same position and agreeing flush-independent stats, the dry run flushes
nothing, and the two runs' flush-independent stats stay in agreement. -/
theorem runLoop_dry_live (env : SearchEnv) (bre : BatchEnv) (uo : Bool) (bs : Nat)
    (now : String) (total : Nat) :
    ∀ (f : Nat) (std stl : LoopState),
      std.skip = stl.skip → std.flushed = [] →
      statsTablesEq std.stats stl.stats →
      (runLoop env bre uo true bs now total f std).1.flushed = [] ∧
      statsTablesEq (runLoop env bre uo true bs now total f std).1.stats
        (runLoop env bre uo false bs now total f stl).1.stats := by
  intro f
  induction f with
  | zero => exact fun std stl hskip hfl htab => ⟨hfl, htab⟩
  | succ f ih =>
    intro std stl hskip hfl htab
    by_cases hlt : std.skip < total
    · cases hu : env std.skip bs uo with
      | none =>
        -- both sides crash on the failed unpack
        have hud : unpack2 (search_documents env std.skip bs uo) =
            Except.error "ValueError: not enough values to unpack (expected 2, got 0)" := by
          simp [search_documents, hu, unpack2]
        simp only [runLoop, ← hskip]
        rw [if_pos hlt, if_pos hlt, hud]
        exact ⟨by simpa using hfl, htab⟩
      | some dc =>
        obtain ⟨docs, cnt⟩ := dc
        have hud : unpack2 (search_documents env std.skip bs uo) =
            Except.ok (docs, cnt) := by
          simp [search_documents, hu, unpack2]
        by_cases hie : docs.isEmpty = true
        · simp only [runLoop, ← hskip]
          rw [if_pos hlt, if_pos hlt, hud]
          simp only [hie, if_true]
          exact ⟨by simpa using hfl, htab⟩
        · obtain ⟨hus, hcr, ht2⟩ := processPage_congr now docs std.stats stl.stats htab
          cases hcc : (processPage now docs std.stats).2.2 with
          | some e =>
            rw [hcc] at hcr
            simp only [runLoop, ← hskip]
            rw [if_pos hlt, if_pos hlt, hud]
            simp only [hie, if_false, hcc, ← hcr]
            exact ⟨by simpa using hfl, by simpa using ht2⟩
          | none =>
            rw [hcc] at hcr
            have hstep_d := runLoop_step env bre uo true bs now total f std hlt
              docs cnt hu (by intro hdn; rw [hdn] at hie; exact hie rfl) hcc
            have hstep_l := runLoop_step env bre uo false bs now total f stl
              (hskip ▸ hlt) docs cnt (hskip ▸ hu)
              (by intro hdn; rw [hdn] at hie; exact hie rfl) hcr.symm
            rw [hstep_d, hstep_l]
            apply ih
            · rw [stepState_skip, stepState_skip, hskip]
            · rw [stepState_dry_flushed]
              exact hfl
            · rw [stepState_dry_stats]
              obtain ⟨a1, a2, a3⟩ := ht2
              obtain ⟨b1, b2, b3⟩ := stepState_stats_tables bre false bs now stl docs
              exact ⟨a1.trans b1, a2.trans b2, a3.trans b3⟩
    · simp only [runLoop, ← hskip]
      rw [if_neg hlt, if_neg hlt]
      exact ⟨hfl, htab⟩

/-- A dry run's report stage flushes nothing beyond what the loop flushed. -/
theorem finishRun_dry_flushed (bre : BatchEnv) (r : LoopState × Option String) :
    (finishRun bre true r).flushed = r.1.flushed := by
  simp only [finishRun]
  cases hr : r.2 with
  | some e => simp
  | none => simp

/-- The report stage never changes the flush-independent stats parts. -/
theorem finishRun_tables (bre : BatchEnv) (dry_run : Bool)
    (r : LoopState × Option String) :
    statsTablesEq (finishRun bre dry_run r).stats r.1.stats := by
  simp only [finishRun]
  cases hr : r.2 with
  | some e => exact ⟨rfl, rfl, rfl⟩
  | none =>
    simp only []
    split
    · exact ⟨rfl, rfl, rfl⟩
    · exact ⟨rfl, rfl, rfl⟩

/-- C8: dry-run non-mutation.  For every transport and input document set, a
dry run issues no batch-update calls at all (no in-loop flushes and no final
flush), while its `by_category` and `by_access_level` frequency tables end up
identical to those of a live run over the same inputs. -/
theorem c8_dry_run_non_mutation (env : SearchEnv) (bre : BatchEnv)
    (reclassify_all : Bool) (batch_size : Nat) (now : String) :
    (run_classification env bre reclassify_all true batch_size now).flushed = [] ∧
    (run_classification env bre reclassify_all true batch_size now).stats.by_category =
      (run_classification env bre reclassify_all false batch_size now).stats.by_category ∧
    (run_classification env bre reclassify_all true batch_size now).stats.by_access_level =
      (run_classification env bre reclassify_all false batch_size now).stats.by_access_level := by
  cases hu : unpack2 (search_documents env 0 1 (!reclassify_all)) with
  | error e =>
    simp [run_classification, hu]
  | ok tc =>
    obtain ⟨l, total⟩ := tc
    by_cases ht : total = 0
    · simp [run_classification, hu, ht]
    · simp only [run_classification, hu]
      rw [if_neg ht, if_neg ht]
      obtain ⟨hfl, htab⟩ := runLoop_dry_live env bre (!reclassify_all) batch_size now
        total (total + 1) initLoopState initLoopState rfl rfl ⟨rfl, rfl, rfl⟩
      obtain ⟨t1, t2, t3⟩ := htab
      obtain ⟨d1, d2, d3⟩ := finishRun_tables bre true
        (runLoop env bre (!reclassify_all) true batch_size now total (total + 1)
          initLoopState)
      obtain ⟨l1, l2, l3⟩ := finishRun_tables bre false
        (runLoop env bre (!reclassify_all) false batch_size now total (total + 1)
          initLoopState)
      refine ⟨?_, ?_, ?_⟩
      · rw [finishRun_dry_flushed]
        exact hfl
      · exact d2.trans (t2.trans l2.symm)
      · exact d3.trans (t3.trans l3.symm)

/-! ## The C9 scenario: a static 250-document index, batch size 100 -/

/-- A static index: page requests slice a fixed document list; the reported
count is always the list's length. -/
def staticEnv (docsAll : List Doc) : SearchEnv :=
  fun skip top _ => some ((docsAll.drop skip).take top, docsAll.length)

/-- Loop state after the first page of the static-index scenario. -/
def c9state1 (docsAll : List Doc) (bre : BatchEnv) (now : String) : LoopState :=
  stepState bre false 100 now initLoopState (docsAll.take 100)

/-- Loop state after the second page. -/
def c9state2 (docsAll : List Doc) (bre : BatchEnv) (now : String) : LoopState :=
  stepState bre false 100 now (c9state1 docsAll bre now) ((docsAll.drop 100).take 100)

/-- Loop state after the third page. -/
def c9state3 (docsAll : List Doc) (bre : BatchEnv) (now : String) : LoopState :=
  stepState bre false 100 now (c9state2 docsAll bre now) ((docsAll.drop 200).take 100)

/-- C9: for a static index scope of exactly 250 documents and
`batch_size = 100`, a live run does not crash, issues exactly the three paged
search calls `(0,100)`, `(100,100)`, `(200,100)` after the initial count
query `(0,1)`, retrieves pages of 100, 100 and 50 records, and performs
exactly three batch writes of sizes 100, 100 and 50 (two in-loop flushes and
one final flush). -/
theorem c9_pagination_and_flush_counts (docsAll : List Doc) (bre : BatchEnv)
    (now : String) (hlen : docsAll.length = 250) :
    (run_classification (staticEnv docsAll) bre false false 100 now).crash = none ∧
    (run_classification (staticEnv docsAll) bre false false 100 now).searches =
      [(0, 1), (0, 100), (100, 100), (200, 100)] ∧
    (run_classification (staticEnv docsAll) bre false false 100 now).pages =
      [100, 100, 50] ∧
    (run_classification (staticEnv docsAll) bre false false 100 now).flushed.map
      List.length = [100, 100, 50] := by
  -- page sizes
  have hd1 : (docsAll.take 100).length = 100 := by
    simp only [List.length_take, hlen]
    omega
  have hd2 : ((docsAll.drop 100).take 100).length = 100 := by
    simp only [List.length_take, List.length_drop, hlen]
    omega
  have hd3 : ((docsAll.drop 200).take 100).length = 50 := by
    simp only [List.length_take, List.length_drop, hlen]
    omega
  have hne1 : docsAll.take 100 ≠ [] := by
    intro h0; rw [h0] at hd1; simp at hd1
  have hne2 : (docsAll.drop 100).take 100 ≠ [] := by
    intro h0; rw [h0] at hd2; simp at hd2
  have hne3 : (docsAll.drop 200).take 100 ≠ [] := by
    intro h0; rw [h0] at hd3; simp at hd3
  -- update counts per page
  have hus1 : (processPage now (docsAll.take 100) initLoopState.stats).1.length = 100 := by
    rw [(processPage_total now (docsAll.take 100) initLoopState.stats).2, hd1]
  -- positions
  have hskip1 : (c9state1 docsAll bre now).skip = 100 := by
    simp only [c9state1]
    rw [stepState_skip]
    simp [initLoopState]
  have hskip2 : (c9state2 docsAll bre now).skip = 200 := by
    simp only [c9state2]
    rw [stepState_skip, hskip1]
  have hskip3 : (c9state3 docsAll bre now).skip = 300 := by
    simp only [c9state3]
    rw [stepState_skip, hskip2]
  have hus2 : (processPage now ((docsAll.drop 100).take 100)
      (c9state1 docsAll bre now).stats).1.length = 100 := by
    rw [(processPage_total now ((docsAll.drop 100).take 100)
      (c9state1 docsAll bre now).stats).2, hd2]
  have hus3 : (processPage now ((docsAll.drop 200).take 100)
      (c9state2 docsAll bre now).stats).1.length = 50 := by
    rw [(processPage_total now ((docsAll.drop 200).take 100)
      (c9state2 docsAll bre now).stats).2, hd3]
  -- batch/flush bookkeeping
  have hcond1 : 100 ≤ (initLoopState.batch ++
      (processPage now (docsAll.take 100) initLoopState.stats).1).length := by
    rw [show initLoopState.batch = [] from rfl, List.nil_append, hus1]
  have hfl1 : (c9state1 docsAll bre now).flushed =
      [(processPage now (docsAll.take 100) initLoopState.stats).1] := by
    simp only [c9state1]
    rw [(stepState_live_flush bre 100 now initLoopState (docsAll.take 100) hcond1).1]
    simp [initLoopState]
  have hb1 : (c9state1 docsAll bre now).batch = [] := by
    simp only [c9state1]
    exact (stepState_live_flush bre 100 now initLoopState (docsAll.take 100) hcond1).2
  have hcond2 : 100 ≤ ((c9state1 docsAll bre now).batch ++
      (processPage now ((docsAll.drop 100).take 100)
        (c9state1 docsAll bre now).stats).1).length := by
    rw [hb1]
    simp [hus2]
  have hfl2 : (c9state2 docsAll bre now).flushed =
      [(processPage now (docsAll.take 100) initLoopState.stats).1,
       (processPage now ((docsAll.drop 100).take 100)
         (c9state1 docsAll bre now).stats).1] := by
    simp only [c9state2]
    rw [(stepState_live_flush bre 100 now (c9state1 docsAll bre now)
      ((docsAll.drop 100).take 100) hcond2).1, hfl1, hb1]
    simp
  have hb2 : (c9state2 docsAll bre now).batch = [] := by
    simp only [c9state2]
    exact (stepState_live_flush bre 100 now (c9state1 docsAll bre now)
      ((docsAll.drop 100).take 100) hcond2).2
  have hcond3 : ¬100 ≤ ((c9state2 docsAll bre now).batch ++
      (processPage now ((docsAll.drop 200).take 100)
        (c9state2 docsAll bre now).stats).1).length := by
    rw [hb2]
    simp [hus3]
  have hfl3 : (c9state3 docsAll bre now).flushed =
      [(processPage now (docsAll.take 100) initLoopState.stats).1,
       (processPage now ((docsAll.drop 100).take 100)
         (c9state1 docsAll bre now).stats).1] := by
    simp only [c9state3]
    rw [(stepState_live_noflush bre 100 now (c9state2 docsAll bre now)
      ((docsAll.drop 200).take 100) hcond3).1, hfl2]
  have hb3 : (c9state3 docsAll bre now).batch =
      (processPage now ((docsAll.drop 200).take 100)
        (c9state2 docsAll bre now).stats).1 := by
    simp only [c9state3]
    rw [(stepState_live_noflush bre 100 now (c9state2 docsAll bre now)
      ((docsAll.drop 200).take 100) hcond3).2, hb2]
    simp
  -- search/page traces
  have hse1 : (c9state1 docsAll bre now).searches = [(0, 1), (0, 100)] := by
    simp only [c9state1]
    rw [stepState_searches]
    simp [initLoopState]
  have hse2 : (c9state2 docsAll bre now).searches = [(0, 1), (0, 100), (100, 100)] := by
    simp only [c9state2]
    rw [stepState_searches, hse1, hskip1]
    rfl
  have hse3 : (c9state3 docsAll bre now).searches =
      [(0, 1), (0, 100), (100, 100), (200, 100)] := by
    simp only [c9state3]
    rw [stepState_searches, hse2, hskip2]
    rfl
  have hpg1 : (c9state1 docsAll bre now).pages = [100] := by
    simp only [c9state1]
    rw [stepState_pages, hd1]
    simp [initLoopState]
  have hpg2 : (c9state2 docsAll bre now).pages = [100, 100] := by
    simp only [c9state2]
    rw [stepState_pages, hpg1, hd2]
    rfl
  have hpg3 : (c9state3 docsAll bre now).pages = [100, 100, 50] := by
    simp only [c9state3]
    rw [stepState_pages, hpg2, hd3]
    rfl
  -- the loop computes the three steps and exits
  have he1 : runLoop (staticEnv docsAll) bre true false 100 now 250 (250 + 1)
      initLoopState =
      runLoop (staticEnv docsAll) bre true false 100 now 250 250
        (c9state1 docsAll bre now) :=
    runLoop_step (staticEnv docsAll) bre true false 100 now 250 250 initLoopState
      (by simp [initLoopState]) (docsAll.take 100) docsAll.length rfl hne1
      (processPage_total now (docsAll.take 100) initLoopState.stats).1
  have he2 : runLoop (staticEnv docsAll) bre true false 100 now 250 250
      (c9state1 docsAll bre now) =
      runLoop (staticEnv docsAll) bre true false 100 now 250 249
        (c9state2 docsAll bre now) :=
    runLoop_step (staticEnv docsAll) bre true false 100 now 250 249
      (c9state1 docsAll bre now) (by rw [hskip1]; omega)
      ((docsAll.drop 100).take 100) docsAll.length (by rw [hskip1]; rfl) hne2
      (processPage_total now ((docsAll.drop 100).take 100)
        (c9state1 docsAll bre now).stats).1
  have he3 : runLoop (staticEnv docsAll) bre true false 100 now 250 249
      (c9state2 docsAll bre now) =
      runLoop (staticEnv docsAll) bre true false 100 now 250 248
        (c9state3 docsAll bre now) :=
    runLoop_step (staticEnv docsAll) bre true false 100 now 250 248
      (c9state2 docsAll bre now) (by rw [hskip2]; omega)
      ((docsAll.drop 200).take 100) docsAll.length (by rw [hskip2]; rfl) hne3
      (processPage_total now ((docsAll.drop 200).take 100)
        (c9state2 docsAll bre now).stats).1
  have he4 : runLoop (staticEnv docsAll) bre true false 100 now 250 248
      (c9state3 docsAll bre now) = (c9state3 docsAll bre now, none) :=
    runLoop_exit (staticEnv docsAll) bre true false 100 now 250 247
      (c9state3 docsAll bre now) (by rw [hskip3]; omega)
  have hloop : runLoop (staticEnv docsAll) bre true false 100 now 250 (250 + 1)
      initLoopState = (c9state3 docsAll bre now, none) :=
    he1.trans (he2.trans (he3.trans he4))
  -- final-flush condition
  have hb3len : (c9state3 docsAll bre now).batch.length = 50 := by
    rw [hb3, hus3]
  have hb3ne : (c9state3 docsAll bre now).batch ≠ [] := by
    intro h0; rw [h0] at hb3len; simp at hb3len
  have hie3 : (c9state3 docsAll bre now).batch.isEmpty = false :=
    list_isEmpty_false_of_ne _ hb3ne
  -- assemble `run_classification`
  have hu : unpack2 (search_documents (staticEnv docsAll) 0 1 (!false)) =
      Except.ok (docsAll.take 1, docsAll.length) := rfl
  simp only [run_classification, hu]
  rw [hlen]
  rw [if_neg (by omega : ¬(250 = 0))]
  simp only [Bool.not_false]
  rw [hloop]
  simp only [finishRun, hie3, Bool.not_false, Bool.and_self, if_true]
  refine ⟨by trivial, hse3, hpg3, ?_⟩
  rw [List.map_append, hfl3, hb3]
  simp [hus1, hus2, hus3]

/-- C9 (witness): a concrete static index of 250 default documents. -/
theorem c9_witness :
    (List.replicate 250 ({} : Doc)).length = 250 ∧
    (run_classification (staticEnv (List.replicate 250 ({} : Doc))) noBatchEnv
      false false 100 "T").searches = [(0, 1), (0, 100), (100, 100), (200, 100)] :=
  ⟨by rw [List.length_replicate],
   (c9_pagination_and_flush_counts (List.replicate 250 ({} : Doc)) noBatchEnv "T"
     (by rw [List.length_replicate])).2.1⟩

/-- C6 (witness): for `c6doc` the stored community name `Oak Hill` is carried
into the update. -/
theorem c6_witness :
    extract_community_name (some "/x/") = none ∧
    processDoc "T" c6doc = Except.ok (processDocPure "T" c6doc) ∧
    (processDocPure "T" c6doc).community_name = some "Oak Hill" :=
  ⟨rfl, processDoc_eq "T" c6doc,
    c6_community_preserved "T" c6doc (processDocPure "T" c6doc) "Oak Hill"
      (processDoc_eq "T" c6doc) rfl rfl (by decide)⟩

end ClassifyDocs
